import Mathlib

/-!
Verification of the SkillMimic HRL task layer
(`skillmimic/env/tasks/hrl_heading_easy.py` and
`skillmimic/env/tasks/hrl_hookshot.py`).

The per-environment-step numeric functions are embedded shallowly:
float32 tensor arithmetic is idealised as exact real arithmetic, a batched
tensor of shape `[num_envs, ...]` becomes a function `Fin n → α`, and the
side-effecting task methods become explicit state transformers on a record
of the task's buffers.  Helper routines that live in the repository's
`utils/torch_utils.py` (not part of this slice) are modelled from the
spec's description of the heading-frame transform; everything else is
translated directly from the Python source.
-/

noncomputable section

namespace SkillMimic

/-- A 3-component float vector (one row of a `[n,3]` tensor). -/
structure Vec3 where
  x : ℝ
  y : ℝ
  z : ℝ

/-- A quaternion in isaacgym's `(x, y, z, w)` layout
(one row of `root_rot = root_states[..., 3:7]`). -/
structure Quat where
  x : ℝ
  y : ℝ
  z : ℝ
  w : ℝ

/-- Componentwise difference of two 3-vectors (`a - b` on `[n,3]` tensors). -/
def sub3 (a b : Vec3) : Vec3 := ⟨a.x - b.x, a.y - b.y, a.z - b.z⟩

/-- Euclidean norm of a 3-vector: `torch.norm(v, dim=-1)` on a `[n,3]` tensor. -/
def norm3 (v : Vec3) : ℝ := Real.sqrt (v.x ^ 2 + v.y ^ 2 + v.z ^ 2)

/-- The `torch.cat([goal_pos, ones], dim=-1)` step: lift an xy goal to 3D at height `z = 1`. -/
def liftGoal (g : ℝ × ℝ) : Vec3 := ⟨g.1, g.2, 1⟩

/-- Function `compute_heading_reward` from `hrl_heading_easy.py` (lines 307-339), one
environment.  The root position and velocity are accepted, as in the source,
but every use of them in the body is commented out; only the ball-to-goal
distance survives: the goal xy is lifted to `z = 1`, and the reward is
`exp(-‖ball_pos - goal_pos3d‖)`. -/
def compute_heading_reward (root_pos root_vel ball_pos : Vec3) (goal_pos : ℝ × ℝ) : ℝ :=
  let goal_pos3 := liftGoal goal_pos
  let distance_to_goal := norm3 (sub3 ball_pos goal_pos3)
  let position_reward := Real.exp (-distance_to_goal)
  position_reward

/-- Batched `compute_heading_reward`: the tensor version applied row by row. -/
def compute_heading_reward_batch (n : ℕ) (root_pos root_vel ball_pos : Fin n → Vec3)
    (goal_pos : Fin n → ℝ × ℝ) : Fin n → ℝ :=
  fun i => compute_heading_reward (root_pos i) (root_vel i) (ball_pos i) (goal_pos i)

/-- Function `compute_hook_reward` from `hrl_hookshot.py` (lines 189-194), one
environment: `exp(-|ball_pos_z - 2.5|)`. -/
def compute_hook_reward (ball_pos : Vec3) : ℝ :=
  let ball_height_reward := Real.exp (-|ball_pos.z - 2.5|)
  ball_height_reward

/-- Function `compute_humanoid_reset` from `hrl_heading_easy.py` (lines 343-378) and,
textually identical in its live lines, `hrl_hookshot.py` (lines 197-210), one
environment.  `contact_buf`, `rigid_body_pos`, `ball_pos` and `goal_pos` are
accepted but unused (their uses are commented out).  Returns
`(reset, terminated)` as 0/1 integers, mirroring `torch.where` on the
integer `reset_buf`. -/
def compute_humanoid_reset (reset_buf progress_buf : ℤ) (contact_buf : Vec3)
    (rigid_body_pos ball_pos root_pos : Vec3) (goal_pos : ℝ × ℝ)
    (max_episode_length : ℤ) (enable_early_termination : Bool)
    (termination_heights : ℝ) : ℤ × ℤ :=
  let terminated : ℤ := 0
  let terminated :=
    if enable_early_termination then
      -- has_fallen = (root_pos_z < termination_heights) * (progress_buf > 1)
      if root_pos.z < termination_heights ∧ 1 < progress_buf then 1 else terminated
    else terminated
  let reset := if max_episode_length - 1 ≤ progress_buf then 1 else terminated
  (reset, terminated)

/-- The two-argument arctangent `torch.atan2 y x`, realised as the complex
argument of `x + y*I` (range `(-pi, pi]`, with `atan2 0 0 = 0`). -/
def atan2 (y x : ℝ) : ℝ := Complex.arg ⟨x, y⟩

/-- Modelled from the spec: `torch_utils.quat_rotate` is repository code not
under `src/`; the spec's "heading-frame transforms" rotate a vector by a
unit quaternion `q = (qv, w)`:
`v * (2*w^2 - 1) + 2*w*(qv x v) + 2*qv*(qv . v)`. -/
def quat_rotate (q : Quat) (v : Vec3) : Vec3 :=
  let d := q.x * v.x + q.y * v.y + q.z * v.z
  ⟨v.x * (2 * q.w ^ 2 - 1) + 2 * q.w * (q.y * v.z - q.z * v.y) + 2 * q.x * d,
   v.y * (2 * q.w ^ 2 - 1) + 2 * q.w * (q.z * v.x - q.x * v.z) + 2 * q.y * d,
   v.z * (2 * q.w ^ 2 - 1) + 2 * q.w * (q.x * v.y - q.y * v.x) + 2 * q.z * d⟩

/-- Modelled from the spec: `torch_utils.calc_heading` is repository code not
under `src/`; the heading of a root rotation is the yaw angle of the rotated
reference direction `(1, 0, 0)`. -/
def calc_heading (q : Quat) : ℝ :=
  let rot_dir := quat_rotate q ⟨1, 0, 0⟩
  atan2 rot_dir.y rot_dir.x

/-- Modelled from the spec: `torch_utils.calc_heading_quat_inv` is repository
code not under `src/`; the "inverse heading quaternion" rotates by minus the
heading about the z axis (quaternion `(0, 0, sin(a/2), cos(a/2))` for a
rotation by `a` about z). -/
def calc_heading_quat_inv (q : Quat) : Quat :=
  let heading := calc_heading q
  ⟨0, 0, Real.sin (-heading / 2), Real.cos (-heading / 2)⟩

/-- Modelled from the spec: `torch_utils.normalize_angle` is repository code
not under `src/`; it wraps an angle into `(-pi, pi]` as `atan2 (sin x) (cos x)`. -/
def normalize_angle (x : ℝ) : ℝ := atan2 (Real.sin x) (Real.cos x)

/-- The 4-component task observation of HRLHeadingEasy: local target offset
(xy) and the cosine/sine of the relative heading angle. -/
structure HeadingObs where
  tarX : ℝ
  tarY : ℝ
  cosAngle : ℝ
  sinAngle : ℝ

/-- Function `compute_heading_observations` from `hrl_heading_easy.py`
(lines 279-303), one environment: the goal offset is lifted to 3D with
`z = 0`, rotated by the inverse heading quaternion and truncated back to xy;
the last two components are the cosine and sine of the normalized angle
between the local target direction and the locally rotated facing
direction `(1, 0, 0)`. -/
def compute_heading_observations (root_pos : Vec3) (goal_pos : ℝ × ℝ) (root_rot : Quat) :
    HeadingObs :=
  let heading_rot := calc_heading_quat_inv root_rot
  let facing_dir : Vec3 := ⟨1, 0, 0⟩
  let local_facing_dir := quat_rotate heading_rot facing_dir
  let local_tar_pos : ℝ × ℝ := (goal_pos.1 - root_pos.x, goal_pos.2 - root_pos.y)
  let local_tar_pos_3d : Vec3 := ⟨local_tar_pos.1, local_tar_pos.2, 0⟩
  let rotated := quat_rotate heading_rot local_tar_pos_3d
  let angle :=
    normalize_angle (atan2 rotated.y rotated.x - atan2 local_facing_dir.y local_facing_dir.x)
  ⟨rotated.x, rotated.y, Real.cos angle, Real.sin angle⟩

/-- Flattening of a `HeadingObs` row, as concatenated into `obs_buf`. -/
def obsToList (o : HeadingObs) : List ℝ := [o.tarX, o.tarY, o.cosAngle, o.sinAngle]

/-- Field `goal_size = 4` set in `HRLHeadingEasy.__init__` (line 60). -/
def headingEasy_goal_size : ℕ := 4

/-- Method `HRLHeadingEasy.get_task_obs_size` (lines 89-94): `goal_size`
when task observations are enabled, else 0. -/
def headingEasy_get_task_obs_size (enable_task_obs : Bool) : ℕ :=
  if enable_task_obs then headingEasy_goal_size else 0

/-- Outcome of a `_reset_actors` dispatch: which initialization runs, or an
assertion failure. -/
inductive ResetAction where
  | randomInit
  | deterministicInit (t : ℤ)
  | assertError
deriving DecidableEq

/-- The stateInit parsing in `HRLHeadingEasy.__init__` (lines 48-54): a
string equal to "random" in any letter case is stored as -1, anything else
as its integer value.  `is_random` stands for Python's case-insensitive test
`state_init.lower() == "random"` and `as_int` for `int(state_init)`. -/
def headingEasy_parse_state_init (is_random : Bool) (as_int : ℤ) : ℤ :=
  if is_random then -1 else as_int

/-- Method `HRLHeadingEasy._reset_actors` (lines 106-116): -1 dispatches to
random reference-state init, values at least 2 to deterministic init, and
everything else hits `assert(False)`. -/
def headingEasy_reset_actors (state_init : ℤ) : ResetAction :=
  if state_init = -1 then ResetAction.randomInit
  else if 2 ≤ state_init then ResetAction.deterministicInit state_init
  else ResetAction.assertError

/-- The `HRLHookshot.StateInit` enum (lines 47-51). -/
inductive StateInit where
  | Default
  | Start
  | Random
  | Hybrid
deriving DecidableEq

/-- Method `HRLHookshot._reset_actors` (lines 104-113): Start and Random
dispatch to random reference-state init, everything else hits
`assert(False)`. -/
def hookshot_reset_actors (state_init : StateInit) : ResetAction :=
  if state_init = StateInit.Start ∨ state_init = StateInit.Random then ResetAction.randomInit
  else ResetAction.assertError

/-- The per-step mutable state of an `HRLHeadingEasy` instance visible to the
reward/reset/observation methods: simulation tensors consumed from the
physics engine, the task's own goal and success flags, and the output
buffers.  A `[num_envs, ...]` tensor becomes a function on `Fin n`. -/
structure HeadingState (n : ℕ) where
  rootPos : Fin n → Vec3
  rootRot : Fin n → Quat
  rootVel : Fin n → Vec3
  ballPos : Fin n → Vec3
  rigidBodyPos : Fin n → Vec3
  contactForces : Fin n → Vec3
  dofPos : Fin n → ℝ
  dofVel : Fin n → ℝ
  goalPosition : Fin n → ℝ × ℝ
  progressBuf : Fin n → ℤ
  rewBuf : Fin n → ℝ
  resetBuf : Fin n → ℤ
  terminateBuf : Fin n → ℤ
  obsBuf : Fin n → List ℝ
  reachedTarget : Fin n → Bool

variable {n : ℕ}

/-- Method `HRLHeadingEasy._compute_reward` (lines 165-178): writes `rew_buf`
from `compute_heading_reward`, and also ors `at_target` (ball within 0.5 of
the lifted goal) into `reached_target`. -/
def headingEasy_compute_reward (st : HeadingState n) : HeadingState n :=
  { st with
    rewBuf := fun i =>
      compute_heading_reward (st.rootPos i) (st.rootVel i) (st.ballPos i) (st.goalPosition i),
    reachedTarget := fun i =>
      st.reachedTarget i ||
        (if norm3 (sub3 (st.ballPos i) (liftGoal (st.goalPosition i))) < 0.5 then true
         else false) }

/-- Method `HRLHeadingEasy._compute_reset` (lines 156-163): writes `reset_buf`
and `_terminate_buf` from `compute_humanoid_reset`. -/
def headingEasy_compute_reset (max_episode_length : ℤ) (enable_early_termination : Bool)
    (termination_heights : ℝ) (st : HeadingState n) : HeadingState n :=
  { st with
    resetBuf := fun i =>
      (compute_humanoid_reset (st.resetBuf i) (st.progressBuf i) (st.contactForces i)
        (st.rigidBodyPos i) (st.ballPos i) (st.rootPos i) (st.goalPosition i)
        max_episode_length enable_early_termination termination_heights).1,
    terminateBuf := fun i =>
      (compute_humanoid_reset (st.resetBuf i) (st.progressBuf i) (st.contactForces i)
        (st.rigidBodyPos i) (st.ballPos i) (st.rootPos i) (st.goalPosition i)
        max_episode_length enable_early_termination termination_heights).2 }

/-- Method `HRLHeadingEasy._compute_observations` (lines 196-212): writes
`obs_buf` as humanoid obs ++ object obs, with the 4-component task
observation appended when task observations are enabled.  The humanoid and
object observation rows come from the base class (out of scope) and are
inputs here. -/
def headingEasy_compute_observations (enable_task_obs : Bool)
    (humanoid_obs obj_obs : Fin n → List ℝ) (st : HeadingState n) : HeadingState n :=
  { st with
    obsBuf := fun i =>
      if enable_task_obs then
        humanoid_obs i ++ obj_obs i ++
          obsToList (compute_heading_observations (st.rootPos i) (st.goalPosition i)
            (st.rootRot i))
      else humanoid_obs i ++ obj_obs i }

/-- Method `HRLHeadingEasy._reset_envs` (lines 180-194), its own effect after
the base-class reset (out of scope) has run: when `env_ids` is nonempty, each
reset environment's goal is set to its root xy plus `(rand*6+2, rand*6+2)`
and `reached_target` is cleared there; `rx, ry` are the raw uniform draws of
`torch.rand`. -/
def headingEasy_reset_envs (env_ids : List (Fin n)) (rx ry : Fin n → ℝ)
    (st : HeadingState n) : HeadingState n :=
  if 0 < env_ids.length then
    { st with
      goalPosition := fun i =>
        if i ∈ env_ids then
          ((st.rootPos i).x + (rx i * 6 + 2), (st.rootPos i).y + (ry i * 6 + 2))
        else st.goalPosition i,
      reachedTarget := fun i => if i ∈ env_ids then false else st.reachedTarget i }
  else st

/-- The slice of `HRLHookshot` state visible to `_compute_observations`: the
class keeps a `_goal_position` tensor, and `obs_buf` is the output. -/
structure HookshotState (n : ℕ) where
  goalPosition : Fin n → ℝ × ℝ
  obsBuf : Fin n → List ℝ

/-- Method `HRLHookshot._compute_observations` (lines 165-177): writes
`obs_buf` as humanoid obs ++ object obs only; no task/goal component is ever
concatenated.  The humanoid and object observation rows come from the base
class (out of scope) and are inputs here. -/
def hookshot_compute_observations (humanoid_obs obj_obs : Fin n → List ℝ)
    (st : HookshotState n) : HookshotState n :=
  { st with obsBuf := fun i => humanoid_obs i ++ obj_obs i }

/-- A concrete single-environment HeadingEasy state used to evaluate the
step functions: root at the origin with identity rotation, ball at the
lifted goal point `(0, 0, 1)`, all buffers zeroed, and `reached_target`
initially `b`. -/
def exampleHeadingState (b : Bool) : HeadingState 1 where
  rootPos := fun _ => ⟨0, 0, 0⟩
  rootRot := fun _ => ⟨0, 0, 0, 1⟩
  rootVel := fun _ => ⟨0, 0, 0⟩
  ballPos := fun _ => ⟨0, 0, 1⟩
  rigidBodyPos := fun _ => ⟨0, 0, 0⟩
  contactForces := fun _ => ⟨0, 0, 0⟩
  dofPos := fun _ => 0
  dofVel := fun _ => 0
  goalPosition := fun _ => (0, 0)
  progressBuf := fun _ => 0
  rewBuf := fun _ => 0
  resetBuf := fun _ => 0
  terminateBuf := fun _ => 0
  obsBuf := fun _ => []
  reachedTarget := fun _ => b

/-- A concrete single-environment Hookshot state with goal `g` and an empty
observation buffer. -/
def exampleHookshotState (g : ℝ × ℝ) : HookshotState 1 where
  goalPosition := fun _ => g
  obsBuf := fun _ => []

end SkillMimic

namespace SkillMimic

/-- Claim C6's core arithmetic fact, shared shape: `exp (-d) = 1 ↔ d = 0`
for `0 ≤ d`, plus the `(0, 1]` range. -/
theorem exp_neg_range (d : ℝ) (hd : 0 ≤ d) :
    0 < Real.exp (-d) ∧ Real.exp (-d) ≤ 1 ∧ (Real.exp (-d) = 1 ↔ d = 0) := by
  refine ⟨Real.exp_pos _, Real.exp_le_one_iff.mpr (by linarith), ?_⟩
  rw [Real.exp_eq_one_iff]
  constructor
  · intro h; linarith
  · intro h; simp [h]

/-- The Euclidean norm of a 3-vector difference vanishes iff the vectors agree. -/
theorem norm3_sub_eq_zero_iff (a b : Vec3) : norm3 (sub3 a b) = 0 ↔ a = b := by
  unfold norm3 sub3
  rw [Real.sqrt_eq_zero (by positivity)]
  constructor
  · intro h
    dsimp only at h
    have hx : (a.x - b.x) ^ 2 = 0 := by nlinarith [sq_nonneg (a.x - b.x), sq_nonneg (a.y - b.y), sq_nonneg (a.z - b.z)]
    have hy : (a.y - b.y) ^ 2 = 0 := by nlinarith [sq_nonneg (a.x - b.x), sq_nonneg (a.y - b.y), sq_nonneg (a.z - b.z)]
    have hz : (a.z - b.z) ^ 2 = 0 := by nlinarith [sq_nonneg (a.x - b.x), sq_nonneg (a.y - b.y), sq_nonneg (a.z - b.z)]
    have hx' := sq_eq_zero_iff.mp hx
    have hy' := sq_eq_zero_iff.mp hy
    have hz' := sq_eq_zero_iff.mp hz
    cases a; cases b
    simp only [Vec3.mk.injEq]
    constructor
    · linarith [hx']
    constructor
    · linarith [hy']
    · linarith [hz']
  · intro h
    subst h
    ring

/-- The Euclidean norm is nonnegative. -/
theorem norm3_nonneg (v : Vec3) : 0 ≤ norm3 v := Real.sqrt_nonneg _

/-- Claim C1: per environment, `compute_heading_reward` returns the
exponential of the negated Euclidean distance from the ball's 3D position to
the goal position lifted to height `z = 1`; consequently every reward lies in
`(0, 1]` and equals 1 exactly when the ball sits at the lifted goal point. -/
theorem C1_compute_heading_reward_spec (n : ℕ) (root_pos root_vel ball_pos : Fin n → Vec3)
    (goal_pos : Fin n → ℝ × ℝ) (i : Fin n) :
    compute_heading_reward_batch n root_pos root_vel ball_pos goal_pos i =
      Real.exp (-Real.sqrt (((ball_pos i).x - (goal_pos i).1) ^ 2 +
        ((ball_pos i).y - (goal_pos i).2) ^ 2 + ((ball_pos i).z - 1) ^ 2)) ∧
    0 < compute_heading_reward_batch n root_pos root_vel ball_pos goal_pos i ∧
    compute_heading_reward_batch n root_pos root_vel ball_pos goal_pos i ≤ 1 ∧
    (compute_heading_reward_batch n root_pos root_vel ball_pos goal_pos i = 1 ↔
      ball_pos i = liftGoal (goal_pos i)) := by
  have hdef : compute_heading_reward_batch n root_pos root_vel ball_pos goal_pos i =
      Real.exp (-norm3 (sub3 (ball_pos i) (liftGoal (goal_pos i)))) := rfl
  have h := exp_neg_range (norm3 (sub3 (ball_pos i) (liftGoal (goal_pos i)))) (norm3_nonneg _)
  refine ⟨rfl, ?_, ?_, ?_⟩
  · rw [hdef]; exact h.1
  · rw [hdef]; exact h.2.1
  · rw [hdef]; exact h.2.2.trans (norm3_sub_eq_zero_iff _ _)

/-- Claim C2: `compute_humanoid_reset` terminates an environment iff early
termination is enabled, the root height is below the termination height, and
progress exceeds 1; it resets iff progress reached `max_episode_length - 1`
or the environment terminated; with early termination disabled, terminated is
0 and reset marks exactly the environments at the episode-length bound. -/
theorem C2_compute_humanoid_reset_spec (reset_buf progress_buf : ℤ)
    (contact_buf rigid_body_pos ball_pos root_pos : Vec3) (goal_pos : ℝ × ℝ)
    (max_episode_length : ℤ) (enable_early_termination : Bool) (termination_heights : ℝ) :
    ((compute_humanoid_reset reset_buf progress_buf contact_buf rigid_body_pos ball_pos
        root_pos goal_pos max_episode_length enable_early_termination
        termination_heights).2 = 1 ↔
      (enable_early_termination = true ∧ root_pos.z < termination_heights ∧
        1 < progress_buf)) ∧
    ((compute_humanoid_reset reset_buf progress_buf contact_buf rigid_body_pos ball_pos
        root_pos goal_pos max_episode_length enable_early_termination
        termination_heights).2 = 0 ∨
      (compute_humanoid_reset reset_buf progress_buf contact_buf rigid_body_pos ball_pos
        root_pos goal_pos max_episode_length enable_early_termination
        termination_heights).2 = 1) ∧
    ((compute_humanoid_reset reset_buf progress_buf contact_buf rigid_body_pos ball_pos
        root_pos goal_pos max_episode_length enable_early_termination
        termination_heights).1 = 1 ↔
      (max_episode_length - 1 ≤ progress_buf ∨
        (compute_humanoid_reset reset_buf progress_buf contact_buf rigid_body_pos ball_pos
          root_pos goal_pos max_episode_length enable_early_termination
          termination_heights).2 = 1)) ∧
    ((compute_humanoid_reset reset_buf progress_buf contact_buf rigid_body_pos ball_pos
        root_pos goal_pos max_episode_length enable_early_termination
        termination_heights).1 = 0 ∨
      (compute_humanoid_reset reset_buf progress_buf contact_buf rigid_body_pos ball_pos
        root_pos goal_pos max_episode_length enable_early_termination
        termination_heights).1 = 1) ∧
    compute_humanoid_reset reset_buf progress_buf contact_buf rigid_body_pos ball_pos
        root_pos goal_pos max_episode_length false termination_heights =
      (if max_episode_length - 1 ≤ progress_buf then 1 else 0, 0) := by
  unfold compute_humanoid_reset
  cases enable_early_termination <;> split_ifs <;> simp_all

/-- Claim C6: `compute_hook_reward` returns `exp(-|ball_z - 2.5|)` per
environment: it depends only on the ball's height, lies in `(0, 1]`, and
equals 1 exactly when the ball's height is 2.5. -/
theorem C6_compute_hook_reward_spec (ball_pos : Vec3) :
    compute_hook_reward ball_pos = Real.exp (-|ball_pos.z - 2.5|) ∧
    0 < compute_hook_reward ball_pos ∧
    compute_hook_reward ball_pos ≤ 1 ∧
    (compute_hook_reward ball_pos = 1 ↔ ball_pos.z = 2.5) ∧
    (∀ a b : ℝ, compute_hook_reward ⟨a, b, ball_pos.z⟩ = compute_hook_reward ball_pos) := by
  have h := exp_neg_range |ball_pos.z - 2.5| (abs_nonneg _)
  refine ⟨rfl, h.1, h.2.1, ?_, fun a b => rfl⟩
  exact h.2.2.trans (by rw [abs_eq_zero, sub_eq_zero])

/-- Claim C9: `compute_heading_reward` is noninterferent with respect to the
humanoid state: two calls with the same ball and goal positions but arbitrary
root positions and velocities return equal reward tensors. -/
theorem C9_heading_reward_noninterference (n : ℕ)
    (root_pos root_pos' root_vel root_vel' ball_pos : Fin n → Vec3)
    (goal_pos : Fin n → ℝ × ℝ) :
    compute_heading_reward_batch n root_pos root_vel ball_pos goal_pos =
      compute_heading_reward_batch n root_pos' root_vel' ball_pos goal_pos := rfl

/-- Claim C3: the heading observation's first two components are the goal
offset lifted to 3D with `z = 0`, rotated by the inverse heading quaternion
and truncated to xy; the last two are the cosine and sine of the normalized
relative angle, hence always a unit vector; and the task observation size is
4 when enabled and 0 otherwise. -/
theorem C3_compute_heading_observations_spec (root_pos : Vec3) (goal_pos : ℝ × ℝ)
    (root_rot : Quat) :
    ((compute_heading_observations root_pos goal_pos root_rot).tarX =
        (quat_rotate (calc_heading_quat_inv root_rot)
          ⟨goal_pos.1 - root_pos.x, goal_pos.2 - root_pos.y, 0⟩).x ∧
      (compute_heading_observations root_pos goal_pos root_rot).tarY =
        (quat_rotate (calc_heading_quat_inv root_rot)
          ⟨goal_pos.1 - root_pos.x, goal_pos.2 - root_pos.y, 0⟩).y) ∧
    ((compute_heading_observations root_pos goal_pos root_rot).cosAngle =
        Real.cos (normalize_angle
          (atan2 (quat_rotate (calc_heading_quat_inv root_rot)
              ⟨goal_pos.1 - root_pos.x, goal_pos.2 - root_pos.y, 0⟩).y
            (quat_rotate (calc_heading_quat_inv root_rot)
              ⟨goal_pos.1 - root_pos.x, goal_pos.2 - root_pos.y, 0⟩).x -
          atan2 (quat_rotate (calc_heading_quat_inv root_rot) ⟨1, 0, 0⟩).y
            (quat_rotate (calc_heading_quat_inv root_rot) ⟨1, 0, 0⟩).x)) ∧
      (compute_heading_observations root_pos goal_pos root_rot).sinAngle =
        Real.sin (normalize_angle
          (atan2 (quat_rotate (calc_heading_quat_inv root_rot)
              ⟨goal_pos.1 - root_pos.x, goal_pos.2 - root_pos.y, 0⟩).y
            (quat_rotate (calc_heading_quat_inv root_rot)
              ⟨goal_pos.1 - root_pos.x, goal_pos.2 - root_pos.y, 0⟩).x -
          atan2 (quat_rotate (calc_heading_quat_inv root_rot) ⟨1, 0, 0⟩).y
            (quat_rotate (calc_heading_quat_inv root_rot) ⟨1, 0, 0⟩).x))) ∧
    (compute_heading_observations root_pos goal_pos root_rot).cosAngle ^ 2 +
      (compute_heading_observations root_pos goal_pos root_rot).sinAngle ^ 2 = 1 ∧
    headingEasy_get_task_obs_size true = 4 ∧
    headingEasy_get_task_obs_size false = 0 := by
  refine ⟨⟨rfl, rfl⟩, ⟨rfl, rfl⟩, ?_, rfl, rfl⟩
  exact Real.cos_sq_add_sin_sq _

/-- Rotating by the identity quaternion leaves a vector unchanged. -/
theorem quat_rotate_identity (v : Vec3) : quat_rotate ⟨0, 0, 0, 1⟩ v = v := by
  cases v
  simp only [quat_rotate, Vec3.mk.injEq]
  norm_num

/-- The heading of the identity rotation is zero. -/
theorem calc_heading_identity : calc_heading ⟨0, 0, 0, 1⟩ = 0 := by
  unfold calc_heading
  rw [quat_rotate_identity]
  show atan2 0 1 = 0
  unfold atan2
  have h : (⟨1, 0⟩ : ℂ) = 1 := by
    apply Complex.ext <;> simp
  rw [h, Complex.arg_one]

/-- The inverse heading quaternion of the identity rotation is the identity. -/
theorem calc_heading_quat_inv_identity :
    calc_heading_quat_inv ⟨0, 0, 0, 1⟩ = ⟨0, 0, 0, 1⟩ := by
  unfold calc_heading_quat_inv
  rw [calc_heading_identity]
  simp only [Quat.mk.injEq]
  norm_num

/-- Under the identity root rotation, the first heading-observation component
is the raw x goal offset. -/
theorem heading_obs_tarX_identity (root_pos : Vec3) (g : ℝ × ℝ) :
    (compute_heading_observations root_pos g ⟨0, 0, 0, 1⟩).tarX = g.1 - root_pos.x := by
  unfold compute_heading_observations
  rw [calc_heading_quat_inv_identity]
  simp only
  rw [quat_rotate_identity]

/-- Claim C5 counterexample: two HRLHookshot states that differ only in the
goal position produce identical observation buffers, so the hookshot
observation contains no goal-relative component. -/
theorem C5_counterexample :
    (exampleHookshotState (0, 0)).goalPosition 0 ≠ (exampleHookshotState (5, 5)).goalPosition 0 ∧
    (hookshot_compute_observations (fun _ => [1]) (fun _ => [2])
        (exampleHookshotState (0, 0))).obsBuf =
      (hookshot_compute_observations (fun _ => [1]) (fun _ => [2])
        (exampleHookshotState (5, 5))).obsBuf := by
  constructor
  · intro h
    simp only [exampleHookshotState, Prod.mk.injEq] at h
    exact absurd h.1 (by norm_num)
  · rfl

/-- Claim C5, amended: HRLHookshot's observations never depend on the goal
position, while HRLHeadingEasy's observations with task observations enabled
append the 4-component goal-relative task observation, which genuinely
depends on the goal. -/
theorem C5_observations_goal_dependence (n m : ℕ)
    (humanoid_obs obj_obs : Fin n → List ℝ) (st : HookshotState n)
    (g g' : Fin n → ℝ × ℝ)
    (humanoid_obs' obj_obs' : Fin m → List ℝ) (hst : HeadingState m) (i : Fin m) :
    (hookshot_compute_observations humanoid_obs obj_obs
        { st with goalPosition := g }).obsBuf =
      (hookshot_compute_observations humanoid_obs obj_obs
        { st with goalPosition := g' }).obsBuf ∧
    (headingEasy_compute_observations true humanoid_obs' obj_obs' hst).obsBuf i =
      humanoid_obs' i ++ obj_obs' i ++
        obsToList (compute_heading_observations (hst.rootPos i) (hst.goalPosition i)
          (hst.rootRot i)) ∧
    compute_heading_observations ⟨0, 0, 0⟩ (1, 0) ⟨0, 0, 0, 1⟩ ≠
      compute_heading_observations ⟨0, 0, 0⟩ (2, 0) ⟨0, 0, 0, 1⟩ := by
  refine ⟨rfl, rfl, ?_⟩
  intro h
  have hx := congrArg HeadingObs.tarX h
  rw [heading_obs_tarX_identity, heading_obs_tarX_identity] at hx
  norm_num at hx

/-- Claim C7 counterexample: the stored state-init integer -2 (configured
stateInit string "-2") also hits the assertion, so the assertion does not
fire precisely at 0 and 1. -/
theorem C7_counterexample :
    headingEasy_reset_actors (-2) = ResetAction.assertError ∧
    ¬((-2 : ℤ) = 0 ∨ (-2 : ℤ) = 1) := by
  constructor
  · decide
  · decide

/-- Claim C7, amended: in HRLHeadingEasy, a stateInit string equal to
"random" in any letter case is stored as -1 and dispatches to random
reference-state init, stored integers at least 2 dispatch to deterministic
init at that time, and the assertion fires precisely when the stored integer
is at most 1 and different from -1 (in particular at 0 and 1, but also at
integers below -1); in HRLHookshot, Start and Random dispatch to random
reference-state init and Default and Hybrid fire the assertion. -/
theorem C7_reset_actors_spec :
    (∀ v : ℤ, headingEasy_parse_state_init true v = -1) ∧
    (∀ v : ℤ, headingEasy_parse_state_init false v = v) ∧
    (∀ s : ℤ, headingEasy_reset_actors s = ResetAction.randomInit ↔ s = -1) ∧
    (∀ s : ℤ, 2 ≤ s → headingEasy_reset_actors s = ResetAction.deterministicInit s) ∧
    (∀ s : ℤ, headingEasy_reset_actors s = ResetAction.assertError ↔ (s ≠ -1 ∧ s ≤ 1)) ∧
    (∀ s : StateInit, hookshot_reset_actors s = ResetAction.randomInit ↔
      (s = StateInit.Start ∨ s = StateInit.Random)) ∧
    (∀ s : StateInit, hookshot_reset_actors s = ResetAction.assertError ↔
      (s = StateInit.Default ∨ s = StateInit.Hybrid)) := by
  refine ⟨?_, ?_, ?_, ?_, ?_, ?_, ?_⟩
  · intro v
    rfl
  · intro v
    rfl
  · intro s
    unfold headingEasy_reset_actors
    split_ifs with h1 h2 <;> simp_all
  · intro s hs
    unfold headingEasy_reset_actors
    rw [if_neg (by omega), if_pos hs]
  · intro s
    unfold headingEasy_reset_actors
    split_ifs with h1 h2 <;> simp_all <;> omega
  · intro s
    cases s <;> decide
  · intro s
    cases s <;> decide

/-- Claim C7 witness: a stateInit string that lowercases to "random" is
stored as -1, and stored value 3 dispatches to deterministic init at
time 3. -/
theorem C7_reset_actors_witness :
    headingEasy_parse_state_init true 7 = -1 ∧
    headingEasy_reset_actors 3 = ResetAction.deterministicInit 3 :=
  ⟨C7_reset_actors_spec.1 7,
   C7_reset_actors_spec.2.2.2.1 3 (by decide)⟩

/-- Claim C4: a nonempty reset samples each reset environment's goal so that
goal minus root xy lies in `[2, 8) x [2, 8)` and clears `reached_target`
exactly there; environments outside `env_ids`, and the whole state when
`env_ids` is empty, are left unchanged. -/
theorem C4_reset_envs_spec (n : ℕ) (env_ids : List (Fin n)) (rx ry : Fin n → ℝ)
    (st : HeadingState n)
    (hx : ∀ i, 0 ≤ rx i ∧ rx i < 1) (hy : ∀ i, 0 ≤ ry i ∧ ry i < 1) :
    (∀ i ∈ env_ids,
        2 ≤ ((headingEasy_reset_envs env_ids rx ry st).goalPosition i).1 - (st.rootPos i).x ∧
        ((headingEasy_reset_envs env_ids rx ry st).goalPosition i).1 - (st.rootPos i).x < 8 ∧
        2 ≤ ((headingEasy_reset_envs env_ids rx ry st).goalPosition i).2 - (st.rootPos i).y ∧
        ((headingEasy_reset_envs env_ids rx ry st).goalPosition i).2 - (st.rootPos i).y < 8 ∧
        (headingEasy_reset_envs env_ids rx ry st).reachedTarget i = false) ∧
    (∀ i, i ∉ env_ids →
        (headingEasy_reset_envs env_ids rx ry st).goalPosition i = st.goalPosition i ∧
        (headingEasy_reset_envs env_ids rx ry st).reachedTarget i = st.reachedTarget i) ∧
    (env_ids = [] → headingEasy_reset_envs env_ids rx ry st = st) := by
  unfold headingEasy_reset_envs
  by_cases hlen : 0 < env_ids.length
  · rw [if_pos hlen]
    refine ⟨?_, ?_, ?_⟩
    · intro i hi
      have hxi := hx i
      have hyi := hy i
      dsimp only
      rw [if_pos hi, if_pos hi]
      dsimp only
      refine ⟨by linarith [hxi.1], by linarith [hxi.2],
        by linarith [hyi.1], by linarith [hyi.2], rfl⟩
    · intro i hi
      dsimp only
      rw [if_neg hi, if_neg hi]
      exact ⟨rfl, rfl⟩
    · intro h
      subst h
      simp at hlen
  · rw [if_neg hlen]
    have hnil : env_ids = [] := by
      cases env_ids with
      | nil => rfl
      | cons a l => simp at hlen
    subst hnil
    refine ⟨?_, fun i _ => ⟨rfl, rfl⟩, fun _ => rfl⟩
    intro i hi
    simp at hi

/-- Claim C4 witness: resetting the single environment with both uniform
draws equal to one half clears the success flag and puts the goal at least
2 ahead of the root in x. -/
theorem C4_reset_envs_witness :
    (headingEasy_reset_envs [0] (fun _ => (1 : ℝ) / 2) (fun _ => (1 : ℝ) / 2)
        (exampleHeadingState false)).reachedTarget 0 = false ∧
    2 ≤ ((headingEasy_reset_envs [0] (fun _ => (1 : ℝ) / 2) (fun _ => (1 : ℝ) / 2)
        (exampleHeadingState false)).goalPosition 0).1 -
      ((exampleHeadingState false).rootPos 0).x :=
  have h := C4_reset_envs_spec 1 [0] (fun _ => (1 : ℝ) / 2) (fun _ => (1 : ℝ) / 2)
    (exampleHeadingState false) (fun i => by norm_num) (fun i => by norm_num)
  ⟨(h.1 0 (List.mem_singleton.mpr rfl)).2.2.2.2, (h.1 0 (List.mem_singleton.mpr rfl)).1⟩

/-- Claim C8 counterexample: at a state whose ball already sits at the lifted
goal and whose success flag is clear, `_compute_reward` flips
`reached_target`, so it does not modify only `rew_buf`. -/
theorem C8_counterexample :
    (exampleHeadingState false).reachedTarget 0 = false ∧
    (headingEasy_compute_reward (exampleHeadingState false)).reachedTarget 0 = true := by
  refine ⟨rfl, ?_⟩
  have hz : norm3 (sub3 ⟨0, 0, 1⟩ (liftGoal (0, 0))) = 0 := by
    norm_num [norm3, sub3, liftGoal, Real.sqrt_zero]
  have h05 : (0 : ℝ) < 0.5 := by norm_num
  simp only [headingEasy_compute_reward, exampleHeadingState, hz, if_pos h05,
    Bool.false_or]

/-- Claim C8, amended: `_compute_reward` modifies only `rew_buf` and
`reached_target`, `_compute_reset` modifies only `reset_buf` and
`_terminate_buf`, and `_compute_observations` modifies only `obs_buf`; none
of them touch the humanoid root states, target/object states, rigid-body
positions, contact forces, dof positions/velocities, or the goal
position. -/
theorem C8_step_frame_spec (n : ℕ) (st : HeadingState n) (max_episode_length : ℤ)
    (enable_early_termination : Bool) (termination_heights : ℝ)
    (enable_task_obs : Bool) (humanoid_obs obj_obs : Fin n → List ℝ) :
    ((headingEasy_compute_reward st).rootPos = st.rootPos ∧
      (headingEasy_compute_reward st).rootRot = st.rootRot ∧
      (headingEasy_compute_reward st).rootVel = st.rootVel ∧
      (headingEasy_compute_reward st).ballPos = st.ballPos ∧
      (headingEasy_compute_reward st).rigidBodyPos = st.rigidBodyPos ∧
      (headingEasy_compute_reward st).contactForces = st.contactForces ∧
      (headingEasy_compute_reward st).dofPos = st.dofPos ∧
      (headingEasy_compute_reward st).dofVel = st.dofVel ∧
      (headingEasy_compute_reward st).goalPosition = st.goalPosition ∧
      (headingEasy_compute_reward st).progressBuf = st.progressBuf ∧
      (headingEasy_compute_reward st).resetBuf = st.resetBuf ∧
      (headingEasy_compute_reward st).terminateBuf = st.terminateBuf ∧
      (headingEasy_compute_reward st).obsBuf = st.obsBuf) ∧
    ((headingEasy_compute_reset max_episode_length enable_early_termination
        termination_heights st).rootPos = st.rootPos ∧
      (headingEasy_compute_reset max_episode_length enable_early_termination
        termination_heights st).rootRot = st.rootRot ∧
      (headingEasy_compute_reset max_episode_length enable_early_termination
        termination_heights st).rootVel = st.rootVel ∧
      (headingEasy_compute_reset max_episode_length enable_early_termination
        termination_heights st).ballPos = st.ballPos ∧
      (headingEasy_compute_reset max_episode_length enable_early_termination
        termination_heights st).rigidBodyPos = st.rigidBodyPos ∧
      (headingEasy_compute_reset max_episode_length enable_early_termination
        termination_heights st).contactForces = st.contactForces ∧
      (headingEasy_compute_reset max_episode_length enable_early_termination
        termination_heights st).dofPos = st.dofPos ∧
      (headingEasy_compute_reset max_episode_length enable_early_termination
        termination_heights st).dofVel = st.dofVel ∧
      (headingEasy_compute_reset max_episode_length enable_early_termination
        termination_heights st).goalPosition = st.goalPosition ∧
      (headingEasy_compute_reset max_episode_length enable_early_termination
        termination_heights st).progressBuf = st.progressBuf ∧
      (headingEasy_compute_reset max_episode_length enable_early_termination
        termination_heights st).rewBuf = st.rewBuf ∧
      (headingEasy_compute_reset max_episode_length enable_early_termination
        termination_heights st).obsBuf = st.obsBuf ∧
      (headingEasy_compute_reset max_episode_length enable_early_termination
        termination_heights st).reachedTarget = st.reachedTarget) ∧
    ((headingEasy_compute_observations enable_task_obs humanoid_obs obj_obs st).rootPos =
        st.rootPos ∧
      (headingEasy_compute_observations enable_task_obs humanoid_obs obj_obs st).rootRot =
        st.rootRot ∧
      (headingEasy_compute_observations enable_task_obs humanoid_obs obj_obs st).rootVel =
        st.rootVel ∧
      (headingEasy_compute_observations enable_task_obs humanoid_obs obj_obs st).ballPos =
        st.ballPos ∧
      (headingEasy_compute_observations enable_task_obs humanoid_obs obj_obs st).rigidBodyPos =
        st.rigidBodyPos ∧
      (headingEasy_compute_observations enable_task_obs humanoid_obs obj_obs st).contactForces =
        st.contactForces ∧
      (headingEasy_compute_observations enable_task_obs humanoid_obs obj_obs st).dofPos =
        st.dofPos ∧
      (headingEasy_compute_observations enable_task_obs humanoid_obs obj_obs st).dofVel =
        st.dofVel ∧
      (headingEasy_compute_observations enable_task_obs humanoid_obs obj_obs st).goalPosition =
        st.goalPosition ∧
      (headingEasy_compute_observations enable_task_obs humanoid_obs obj_obs st).progressBuf =
        st.progressBuf ∧
      (headingEasy_compute_observations enable_task_obs humanoid_obs obj_obs st).rewBuf =
        st.rewBuf ∧
      (headingEasy_compute_observations enable_task_obs humanoid_obs obj_obs st).resetBuf =
        st.resetBuf ∧
      (headingEasy_compute_observations enable_task_obs humanoid_obs obj_obs st).terminateBuf =
        st.terminateBuf ∧
      (headingEasy_compute_observations enable_task_obs humanoid_obs obj_obs st).reachedTarget =
        st.reachedTarget) :=
  ⟨⟨rfl, rfl, rfl, rfl, rfl, rfl, rfl, rfl, rfl, rfl, rfl, rfl, rfl⟩,
   ⟨rfl, rfl, rfl, rfl, rfl, rfl, rfl, rfl, rfl, rfl, rfl, rfl, rfl⟩,
   ⟨rfl, rfl, rfl, rfl, rfl, rfl, rfl, rfl, rfl, rfl, rfl, rfl, rfl, rfl⟩⟩

/-- Claim C10: `reached_target` is monotone under `_compute_reward` (it never
drops from true to false), and it is cleared exactly by a reset that contains
the environment. -/
theorem C10_reached_target_monotone (n : ℕ) (st : HeadingState n)
    (env_ids : List (Fin n)) (rx ry : Fin n → ℝ) (i : Fin n) :
    (st.reachedTarget i = true →
      (headingEasy_compute_reward st).reachedTarget i = true) ∧
    (i ∈ env_ids →
      (headingEasy_reset_envs env_ids rx ry st).reachedTarget i = false) ∧
    (i ∉ env_ids →
      (headingEasy_reset_envs env_ids rx ry st).reachedTarget i = st.reachedTarget i) := by
  refine ⟨?_, ?_, ?_⟩
  · intro h
    simp only [headingEasy_compute_reward]
    rw [h]
    simp
  · intro hi
    have hlen : 0 < env_ids.length := List.length_pos.mpr (List.ne_nil_of_mem hi)
    simp only [headingEasy_reset_envs]
    rw [if_pos hlen]
    dsimp only
    rw [if_pos hi]
  · intro hi
    simp only [headingEasy_reset_envs]
    by_cases hlen : 0 < env_ids.length
    · rw [if_pos hlen]
      dsimp only
      rw [if_neg hi]
    · rw [if_neg hlen]

/-- Claim C10 witness: with the success flag already set, a reward step keeps
it set, and resetting that environment clears it. -/
theorem C10_reached_target_witness :
    (headingEasy_compute_reward (exampleHeadingState true)).reachedTarget 0 = true ∧
    (headingEasy_reset_envs [0] (fun _ => (0 : ℝ)) (fun _ => (0 : ℝ))
        (exampleHeadingState true)).reachedTarget 0 = false :=
  ⟨(C10_reached_target_monotone 1 (exampleHeadingState true) [0] (fun _ => 0) (fun _ => 0) 0).1
      rfl,
   (C10_reached_target_monotone 1 (exampleHeadingState true) [0] (fun _ => 0) (fun _ => 0) 0).2.1
      (List.mem_singleton.mpr rfl)⟩

end SkillMimic
